import Mathlib

/-!
Verification of the condensation tracker's sample model, the probabilistic SVM
classifier's logistic output and the grayscale filter, following
`libCondensation/include/condensation/Sample.hpp`,
`libClassification/include/classification/ProbabilisticSvmClassifier.hpp` and
`libImageProcessing/src/imageprocessing/GrayscaleFilter.cpp`.

C++ `int` fields are modelled as `ℤ`, `float`/`double` fields as `ℚ`.  The two
process-wide static members of `Sample` (`aspectRatio` and `nextClusterId`)
are modelled as a `GlobalState` record threaded explicitly through the
operations that read or write them.  C++ integer division (truncation toward
zero) is `Int.tdiv`; OpenCV's `cvRound` (round to the nearest integer) is
modelled by Mathlib's `round` on `ℚ`.
-/

namespace Condensation

/-- Model of OpenCV's `cvRound`: rounds a real value to the nearest integer. -/
def cvRound (q : ℚ) : ℤ := round q

/-- The two static data members of class `Sample` (`Sample.hpp`, lines 259-260):
`aspectRatio`, the aspect ratio of all samples, and `nextClusterId`, the next
cluster ID that was not assigned to any sample before. -/
structure GlobalState where
  aspectRatio : ℚ
  nextClusterId : ℤ
  deriving DecidableEq

/-- The per-object fields of class `Sample` (`Sample.hpp`, lines 264-272). -/
structure Sample where
  x : ℤ
  y : ℤ
  size : ℤ
  vx : ℤ
  vy : ℤ
  vsize : ℚ
  weight : ℚ
  object : Bool
  clusterId : ℤ
  deriving DecidableEq

/-- Model of `cv::Rect` as used by `Sample::getBounds`: x, y of the top-left
corner, width and height. -/
structure Rect where
  x : ℤ
  y : ℤ
  width : ℤ
  height : ℤ
  deriving DecidableEq

/-- Default constructor (`Sample.hpp`, line 28):
`x(0), y(0), size(0), vx(0), vy(0), vsize(1), weight(1), object(false),
clusterId(nextClusterId++)`.  Returns the constructed sample together with the
updated global state (the incremented counter). -/
def mkSample (g : GlobalState) : Sample × GlobalState :=
  (⟨0, 0, 0, 0, 0, 1, 1, false, g.nextClusterId⟩,
   { g with nextClusterId := g.nextClusterId + 1 })

/-- Three-argument constructor (`Sample.hpp`, line 37):
`x(x), y(y), size(size), vx(0), vy(0), vsize(1), weight(1), object(false),
clusterId(nextClusterId++)`. -/
def mkSamplePos (x y size : ℤ) (g : GlobalState) : Sample × GlobalState :=
  (⟨x, y, size, 0, 0, 1, 1, false, g.nextClusterId⟩,
   { g with nextClusterId := g.nextClusterId + 1 })

/-- Six-argument constructor (`Sample.hpp`, lines 49-50):
`x(x), y(y), size(size), vx(vx), vy(vy), vsize(vsize), weight(1),
object(false), clusterId(nextClusterId++)`. -/
def mkSampleFull (x y size vx vy : ℤ) (vsize : ℚ) (g : GlobalState) : Sample × GlobalState :=
  (⟨x, y, size, vx, vy, vsize, 1, false, g.nextClusterId⟩,
   { g with nextClusterId := g.nextClusterId + 1 })

namespace Sample

/-- `Sample::getWidth` (line 106): returns `size`. -/
def getWidth (s : Sample) : ℤ := s.size

/-- `Sample::getHeight` (line 113): returns `cvRound(Sample::aspectRatio * size)`,
reading the process-wide static `aspectRatio` at call time. -/
def getHeight (g : GlobalState) (s : Sample) : ℤ := cvRound (g.aspectRatio * s.size)

/-- `Sample::getBounds` (line 57):
`Rect(x - getWidth() / 2, y - getHeight() / 2, getWidth(), getHeight())`,
with C++ integer division (truncation toward zero). -/
def getBounds (g : GlobalState) (s : Sample) : Rect :=
  ⟨s.x - Int.tdiv (getWidth s) 2, s.y - Int.tdiv (getHeight g s) 2,
   getWidth s, getHeight g s⟩

/-- `Sample::setX` (line 71). -/
def setX (s : Sample) (x : ℤ) : Sample := { s with x := x }

/-- `Sample::setY` (line 85). -/
def setY (s : Sample) (y : ℤ) : Sample := { s with y := y }

/-- `Sample::setSize` (line 99). -/
def setSize (s : Sample) (size : ℤ) : Sample := { s with size := size }

/-- `Sample::setVx` (line 127). -/
def setVx (s : Sample) (vx : ℤ) : Sample := { s with vx := vx }

/-- `Sample::setVy` (line 141). -/
def setVy (s : Sample) (vy : ℤ) : Sample := { s with vy := vy }

/-- `Sample::setVSize` (line 155): stores the argument unchecked. -/
def setVSize (s : Sample) (vsize : ℚ) : Sample := { s with vsize := vsize }

/-- `Sample::setWeight` (line 171): stores the argument unchecked. -/
def setWeight (s : Sample) (weight : ℚ) : Sample := { s with weight := weight }

/-- `Sample::setObject` (line 187). -/
def setObject (s : Sample) (object : Bool) : Sample := { s with object := object }

/-- `Sample::getClusterId` (line 194). -/
def getClusterId (s : Sample) : ℤ := s.clusterId

/-- `Sample::operator<` (line 205): `weight < other.weight`. -/
def ltByWeight (s other : Sample) : Bool := decide (s.weight < other.weight)

/-- `Sample::operator>` (line 216): `weight > other.weight`. -/
def gtByWeight (s other : Sample) : Bool := decide (s.weight > other.weight)

/-- `Sample::WeightComparisonAsc::operator()` (line 225): `lhs.weight < rhs.weight`. -/
def weightComparisonAsc (lhs rhs : Sample) : Bool := decide (lhs.weight < rhs.weight)

/-- `Sample::WeightComparisonDesc::operator()` (line 235): `lhs.weight > rhs.weight`. -/
def weightComparisonDesc (lhs rhs : Sample) : Bool := decide (lhs.weight > rhs.weight)

end Sample

/-- Static `Sample::setAspectRatio(double)` (line 245): overwrites the shared
aspect ratio. -/
def setAspectRatio (aspectRatio : ℚ) (g : GlobalState) : GlobalState :=
  { g with aspectRatio := aspectRatio }

/-- Static `Sample::setAspectRatio(int, int)` (line 255):
`setAspectRatio(static_cast<double>(height) / static_cast<double>(width))`. -/
def setAspectRatioWH (width height : ℤ) (g : GlobalState) : GlobalState :=
  setAspectRatio ((height : ℚ) / (width : ℚ)) g

/-- The C++ copy of a `Sample` value (implicitly-defined copy constructor, used
when resampling copies a sample into the next generation): a memberwise copy of
all nine fields that does not touch either static member. -/
def copySample (g : GlobalState) (s : Sample) : Sample × GlobalState := (s, g)

/-- The mutating member functions of `Sample` (every setter the class declares);
there is no alternative that writes `clusterId`, because the class has no
setter for it. -/
inductive SampleOp where
  | opSetX (x : ℤ)
  | opSetY (y : ℤ)
  | opSetSize (size : ℤ)
  | opSetVx (vx : ℤ)
  | opSetVy (vy : ℤ)
  | opSetVSize (vsize : ℚ)
  | opSetWeight (weight : ℚ)
  | opSetObject (object : Bool)

/-- Applies one mutating member function to a sample. -/
def applySampleOp (op : SampleOp) (s : Sample) : Sample :=
  match op with
  | .opSetX x => s.setX x
  | .opSetY y => s.setY y
  | .opSetSize size => s.setSize size
  | .opSetVx vx => s.setVx vx
  | .opSetVy vy => s.setVy vy
  | .opSetVSize vsize => s.setVSize vsize
  | .opSetWeight weight => s.setWeight weight
  | .opSetObject object => s.setObject object

/-- One call to one of the three `Sample` constructors, with its arguments. -/
inductive CtorCall where
  | plain
  | withPos (x y size : ℤ)
  | withVelocity (x y size vx vy : ℤ) (vsize : ℚ)

/-- Executes one constructor call against the current global state. -/
def constructSample (c : CtorCall) (g : GlobalState) : Sample × GlobalState :=
  match c with
  | .plain => mkSample g
  | .withPos x y size => mkSamplePos x y size g
  | .withVelocity x y size vx vy vsize => mkSampleFull x y size vx vy vsize g

/-- Executes a sequence of constructor calls, threading the global state, and
collects the constructed samples in order. -/
def runConstructions : List CtorCall → GlobalState → List Sample × GlobalState
  | [], g => ([], g)
  | c :: cs, g =>
    let p := constructSample c g
    let r := runConstructions cs p.2
    (p.1 :: r.1, r.2)

/-- A fixed concrete sample used by witnesses. -/
def sampleA : Sample := ⟨10, 20, 30, 1, 2, 1, 1, false, 0⟩

/-- A second fixed concrete sample used by witnesses. -/
def sampleB : Sample := ⟨5, 6, 7, 0, 0, 1, 1, true, 1⟩

theorem constructSample_clusterId (c : CtorCall) (g : GlobalState) :
    (constructSample c g).1.clusterId = g.nextClusterId ∧
    (constructSample c g).2.nextClusterId = g.nextClusterId + 1 := by
  cases c <;> exact ⟨rfl, rfl⟩

theorem runConstructions_clusterId_lb (calls : List CtorCall) (g : GlobalState) :
    (∀ s ∈ (runConstructions calls g).1, g.nextClusterId ≤ s.clusterId) ∧
    g.nextClusterId ≤ (runConstructions calls g).2.nextClusterId := by
  induction calls generalizing g with
  | nil => exact ⟨by simp [runConstructions], le_refl _⟩
  | cons c cs ih =>
    have h1 := (constructSample_clusterId c g).1
    have h2 := (constructSample_clusterId c g).2
    obtain ⟨iha, ihb⟩ := ih (constructSample c g).2
    constructor
    · intro s hs
      simp only [runConstructions, List.mem_cons] at hs
      rcases hs with rfl | hs
      · omega
      · have := iha s hs
        omega
    · simp only [runConstructions]
      omega

theorem runConstructions_pairwise (calls : List CtorCall) (g : GlobalState) :
    List.Pairwise (· < ·) ((runConstructions calls g).1.map Sample.clusterId) := by
  induction calls generalizing g with
  | nil => simp [runConstructions]
  | cons c cs ih =>
    have h1 := (constructSample_clusterId c g).1
    have h2 := (constructSample_clusterId c g).2
    simp only [runConstructions, List.map_cons, List.pairwise_cons]
    refine ⟨?_, ih _⟩
    intro id hid
    simp only [List.mem_map] at hid
    obtain ⟨s, hs, rfl⟩ := hid
    have hlb := (runConstructions_clusterId_lb cs (constructSample c g).2).1 s hs
    omega

end Condensation

namespace Classification

/-- Modelled from the spec: the body of
`ProbabilisticSvmClassifier::getProbability(double)` is not under `src/` (only
the class declaration is).  The header documents it as transforming the
hyperplane distance `x` into a probability using the logistic function
`p(x) = 1 / (1 + exp(a + b * x))`, returned paired with the binary
classification result.  The exponential of the C++ standard library is
modelled by a parameter `expF`; the binary classification result, produced by
the underlying SVM, is the parameter `svmResult`. -/
def getProbability (expF : ℚ → ℚ) (svmResult : Bool)
    (logisticA logisticB hyperplaneDistance : ℚ) : Bool × ℚ :=
  (svmResult, 1 / (1 + expF (logisticA + logisticB * hyperplaneDistance)))

end Classification

namespace ImageProcessing

/-- Model of a `cv::Mat`: a channel count and pixel data. -/
structure Img where
  channels : ℕ
  data : List ℕ
  deriving DecidableEq

namespace GrayscaleFilter

/-- `GrayscaleFilter::applyTo` (`GrayscaleFilter.cpp`, lines 19-25): if the
image has more than one channel it is converted with
`cvtColor(image, filtered, CV_BGR2GRAY)`, otherwise it is copied unchanged; the
filtered image is returned.  The OpenCV conversion is the parameter
`cvtToGray`. -/
def applyTo (cvtToGray : Img → Img) (image : Img) : Img :=
  if 1 < image.channels then cvtToGray image else image

/-- `GrayscaleFilter::applyInPlace` (`GrayscaleFilter.cpp`, lines 27-33): if
the image has more than one channel it is replaced by its conversion, otherwise
it is left untouched.  Returns the image's new value. -/
def applyInPlace (cvtToGray : Img → Img) (image : Img) : Img :=
  if 1 < image.channels then cvtToGray image else image

end GrayscaleFilter

/-- A concrete stand-in for `cvtColor(·, ·, CV_BGR2GRAY)` used by witnesses:
always produces a single-channel image. -/
def grayAll : Img → Img := fun m => ⟨1, m.data⟩

end ImageProcessing

open Condensation Classification ImageProcessing

/-- C1: for every sample, `getHeight` returns `cvRound` of the process-wide
aspect ratio current at the moment of the call multiplied by the sample's
`size` field; the result depends on the sample only through `size` (samples of
equal size have equal height under the same global state), so the ratio is not
a per-sample value. -/
theorem c1_getHeight_formula (g : GlobalState) (s t : Sample) (h : s.size = t.size) :
    s.getHeight g = cvRound (g.aspectRatio * s.size) ∧ s.getHeight g = t.getHeight g := by
  refine ⟨rfl, ?_⟩
  simp [Sample.getHeight, h]

/-- Witness for C1 at aspect ratio 2 and the concrete sample `sampleA`. -/
theorem c1_getHeight_formula_witness :
    (sampleA.getHeight ⟨2, 0⟩ = cvRound ((⟨2, 0⟩ : GlobalState).aspectRatio * (sampleA.size : ℚ)) ∧
      sampleA.getHeight ⟨2, 0⟩ = sampleA.getHeight ⟨2, 0⟩) ∧
    sampleA.getHeight ⟨2, 0⟩ = 60 :=
  ⟨c1_getHeight_formula ⟨2, 0⟩ sampleA sampleA rfl,
   by norm_num [Sample.getHeight, sampleA, cvRound, round_eq]⟩

/-- C2: `getBounds` is the rectangle with width `getWidth() = size`, height
`getHeight() = cvRound(aspectRatio * size)` and top-left corner
`(x - getWidth() / 2, y - getHeight() / 2)` with C++ integer division
(truncation toward zero), and it is a deterministic function of
`(x, y, size, aspectRatio)`: two samples agreeing on `x`, `y` and `size` get
the same bounds under the same global state.  The embedding is purely
functional, so the call mutates no field. -/
theorem c2_getBounds_formula (g : GlobalState) (s t : Sample)
    (hx : s.x = t.x) (hy : s.y = t.y) (hs : s.size = t.size) :
    s.getBounds g =
      ⟨s.x - Int.tdiv s.size 2, s.y - Int.tdiv (cvRound (g.aspectRatio * s.size)) 2,
       s.size, cvRound (g.aspectRatio * s.size)⟩ ∧
    s.getWidth = s.size ∧
    s.getHeight g = cvRound (g.aspectRatio * s.size) ∧
    s.getBounds g = t.getBounds g := by
  refine ⟨rfl, rfl, rfl, ?_⟩
  simp [Sample.getBounds, Sample.getWidth, Sample.getHeight, hx, hy, hs]

/-- Witness for C2 at aspect ratio 2 and the concrete sample `sampleA`. -/
theorem c2_getBounds_formula_witness :
    sampleA.getBounds ⟨2, 0⟩ =
      ⟨sampleA.x - Int.tdiv sampleA.size 2,
       sampleA.y - Int.tdiv (cvRound ((⟨2, 0⟩ : GlobalState).aspectRatio * (sampleA.size : ℚ))) 2,
       sampleA.size, cvRound ((⟨2, 0⟩ : GlobalState).aspectRatio * (sampleA.size : ℚ))⟩ ∧
    sampleA.getWidth = sampleA.size ∧
    sampleA.getHeight ⟨2, 0⟩ = cvRound ((⟨2, 0⟩ : GlobalState).aspectRatio * (sampleA.size : ℚ)) ∧
    sampleA.getBounds ⟨2, 0⟩ = sampleA.getBounds ⟨2, 0⟩ :=
  c2_getBounds_formula ⟨2, 0⟩ sampleA sampleA rfl rfl rfl

/-- C3: each of the three constructors assigns `clusterId` from the
process-wide counter `nextClusterId` and increments that counter, so across
any sequence of constructor calls the assigned cluster ids are strictly
increasing in creation order (and in particular pairwise distinct). -/
theorem c3_clusterIds_increasing (calls : List CtorCall) (g : GlobalState) :
    (∀ c g2, (constructSample c g2).1.clusterId = g2.nextClusterId ∧
      (constructSample c g2).2.nextClusterId = g2.nextClusterId + 1) ∧
    List.Pairwise (· < ·) ((runConstructions calls g).1.map Sample.clusterId) :=
  ⟨constructSample_clusterId, runConstructions_pairwise calls g⟩

/-- C4: copying a sample (the memberwise copy used by resampling) preserves its
`clusterId` and does not advance the process-wide counter, and no mutating
member function of `Sample` changes `clusterId` (the class has no setter for
it). -/
theorem c4_copy_preserves_clusterId (g : GlobalState) (s : Sample) (op : SampleOp) :
    (copySample g s).1.clusterId = s.clusterId ∧
    (copySample g s).2 = g ∧
    (applySampleOp op s).clusterId = s.clusterId := by
  refine ⟨rfl, rfl, ?_⟩
  cases op <;> rfl

/-- Counterexample for C5 as stated: `setWeight` stores its argument without
any clamping, so calling it with `-1` on a freshly constructed sample leaves a
negative weight. -/
theorem c5_counterexample :
    ¬ (0 ≤ ((mkSamplePos 0 0 0 ⟨1, 0⟩).1.setWeight (-1)).weight) := by
  norm_num [mkSamplePos, Sample.setWeight]

/-- C5 (amended): every newly constructed sample has weight exactly 1 (hence
non-negative), and `setWeight` stores its argument unchanged, so the weight
stays non-negative exactly when the supplied argument is non-negative. -/
theorem c5_weight_amended (g : GlobalState) (x y size vx vy : ℤ) (vsize w : ℚ)
    (s : Sample) (h : 0 ≤ w) :
    (mkSample g).1.weight = 1 ∧ (mkSamplePos x y size g).1.weight = 1 ∧
    (mkSampleFull x y size vx vy vsize g).1.weight = 1 ∧
    (s.setWeight w).weight = w ∧ 0 ≤ (s.setWeight w).weight :=
  ⟨rfl, rfl, rfl, rfl, h⟩

/-- Witness for the amended C5 at concrete arguments and weight 0. -/
theorem c5_weight_amended_witness :
    (mkSample ⟨1, 0⟩).1.weight = 1 ∧ (mkSamplePos 3 4 5 ⟨1, 0⟩).1.weight = 1 ∧
    (mkSampleFull 3 4 5 1 2 1 ⟨1, 0⟩).1.weight = 1 ∧
    (sampleA.setWeight 0).weight = 0 ∧ 0 ≤ (sampleA.setWeight 0).weight :=
  c5_weight_amended ⟨1, 0⟩ 3 4 5 1 2 1 0 sampleA le_rfl

/-- Counterexample for C6 as stated: the six-argument constructor stores the
given `vsize` unchecked, so constructing with `vsize = -1` yields a sample
whose `vsize` is not positive. -/
theorem c6_counterexample :
    ¬ (0 < (mkSampleFull 0 0 0 0 0 (-1) ⟨1, 0⟩).1.vsize) := by
  norm_num [mkSampleFull]

/-- C6 (amended): the default and three-argument constructors set `vsize = 1`
(hence positive), while the six-argument constructor and `setVSize` store the
given value unchanged, so `vsize > 0` holds exactly when the supplied value is
positive. -/
theorem c6_vsize_amended (g : GlobalState) (x y size vx vy : ℤ) (v : ℚ)
    (s : Sample) (h : 0 < v) :
    0 < (mkSample g).1.vsize ∧ 0 < (mkSamplePos x y size g).1.vsize ∧
    (mkSampleFull x y size vx vy v g).1.vsize = v ∧
    (s.setVSize v).vsize = v ∧ 0 < (s.setVSize v).vsize :=
  ⟨one_pos, one_pos, rfl, rfl, h⟩

/-- Witness for the amended C6 at concrete arguments and `vsize = 1`. -/
theorem c6_vsize_amended_witness :
    0 < (mkSample ⟨1, 0⟩).1.vsize ∧ 0 < (mkSamplePos 3 4 5 ⟨1, 0⟩).1.vsize ∧
    (mkSampleFull 3 4 5 1 2 1 ⟨1, 0⟩).1.vsize = 1 ∧
    (sampleA.setVSize 1).vsize = 1 ∧ 0 < (sampleA.setVSize 1).vsize :=
  c6_vsize_amended ⟨1, 0⟩ 3 4 5 1 2 1 sampleA one_pos

/-- C7: `operator<`, `operator>`, `WeightComparisonAsc` and
`WeightComparisonDesc` order samples by weight only: `a < b` iff
`a.weight < b.weight`, `a > b` iff `a.weight > b.weight`, the ascending
comparator agrees with `operator<` and the descending one with `operator>`,
`a < b` iff `b > a`, and samples of equal weight are tied under both strict
comparisons. -/
theorem c7_weight_ordering (a b : Sample) :
    (Sample.ltByWeight a b = true ↔ a.weight < b.weight) ∧
    (Sample.gtByWeight a b = true ↔ a.weight > b.weight) ∧
    Sample.weightComparisonAsc a b = Sample.ltByWeight a b ∧
    Sample.weightComparisonDesc a b = Sample.gtByWeight a b ∧
    Sample.ltByWeight a b = Sample.gtByWeight b a ∧
    (a.weight = b.weight →
      Sample.ltByWeight a b = false ∧ Sample.gtByWeight a b = false) := by
  refine ⟨by simp [Sample.ltByWeight], by simp [Sample.gtByWeight], rfl, rfl, ?_, ?_⟩
  · simp [Sample.ltByWeight, Sample.gtByWeight, gt_iff_lt]
  · intro h
    simp [Sample.ltByWeight, Sample.gtByWeight, h]

/-- Witness for C7 at the concrete samples `sampleA` and `sampleB`. -/
theorem c7_weight_ordering_witness :
    (Sample.ltByWeight sampleA sampleB = true ↔ sampleA.weight < sampleB.weight) ∧
    (Sample.gtByWeight sampleA sampleB = true ↔ sampleA.weight > sampleB.weight) ∧
    Sample.weightComparisonAsc sampleA sampleB = Sample.ltByWeight sampleA sampleB ∧
    Sample.weightComparisonDesc sampleA sampleB = Sample.gtByWeight sampleA sampleB ∧
    Sample.ltByWeight sampleA sampleB = Sample.gtByWeight sampleB sampleA ∧
    (sampleA.weight = sampleB.weight →
      Sample.ltByWeight sampleA sampleB = false ∧ Sample.gtByWeight sampleA sampleB = false) :=
  c7_weight_ordering sampleA sampleB

/-- C8: the probability component of `getProbability` is
`1 / (1 + exp(a + b * x))`, which lies in `[0, 1]` for every hyperplane
distance and every choice of the logistic parameters, because the exponential
is positive everywhere. -/
theorem c8_probability_unit_interval (expF : ℚ → ℚ) (hexp : ∀ y, 0 < expF y)
    (svmResult : Bool) (a b x : ℚ) :
    0 ≤ (Classification.getProbability expF svmResult a b x).2 ∧
    (Classification.getProbability expF svmResult a b x).2 ≤ 1 := by
  have he := hexp (a + b * x)
  simp only [Classification.getProbability]
  constructor
  · exact div_nonneg zero_le_one (by linarith)
  · rw [div_le_one (by linarith)]
    linarith

/-- Witness for C8 with a concrete positive stand-in for the exponential. -/
theorem c8_probability_unit_interval_witness :
    0 ≤ (Classification.getProbability (fun _ => 1) true 0 0 0).2 ∧
    (Classification.getProbability (fun _ => 1) true 0 0 0).2 ≤ 1 :=
  c8_probability_unit_interval (fun _ => 1) (fun _ => one_pos) true 0 0 0

/-- C9: the two-argument `setAspectRatio(width, height)` sets the shared ratio
to `height / width`, and because the ratio is a single process-wide value, the
call determines the subsequent `getHeight` and `getBounds` of every sample —
including a sample constructed before the call — not only of samples
constructed afterwards. -/
theorem c9_setAspectRatio_wh (g : GlobalState) (width height : ℤ) (s : Sample)
    (xx yy sz : ℤ) (hw : width ≠ 0) :
    (setAspectRatioWH width height g).aspectRatio = (height : ℚ) / (width : ℚ) ∧
    s.getHeight (setAspectRatioWH width height g) =
      cvRound ((height : ℚ) / (width : ℚ) * s.size) ∧
    s.getBounds (setAspectRatioWH width height g) =
      ⟨s.x - Int.tdiv s.size 2,
       s.y - Int.tdiv (cvRound ((height : ℚ) / (width : ℚ) * s.size)) 2,
       s.size, cvRound ((height : ℚ) / (width : ℚ) * s.size)⟩ ∧
    (mkSamplePos xx yy sz g).1.getHeight
        (setAspectRatioWH width height (mkSamplePos xx yy sz g).2) =
      cvRound ((height : ℚ) / (width : ℚ) * sz) :=
  ⟨rfl, rfl, rfl, rfl⟩

/-- Witness for C9 at width 4, height 3 and the concrete sample `sampleA`. -/
theorem c9_setAspectRatio_wh_witness :
    (setAspectRatioWH 4 3 ⟨1, 0⟩).aspectRatio = (3 : ℚ) / (4 : ℚ) ∧
    sampleA.getHeight (setAspectRatioWH 4 3 ⟨1, 0⟩) =
      cvRound ((3 : ℚ) / (4 : ℚ) * sampleA.size) ∧
    sampleA.getBounds (setAspectRatioWH 4 3 ⟨1, 0⟩) =
      ⟨sampleA.x - Int.tdiv sampleA.size 2,
       sampleA.y - Int.tdiv (cvRound ((3 : ℚ) / (4 : ℚ) * sampleA.size)) 2,
       sampleA.size, cvRound ((3 : ℚ) / (4 : ℚ) * sampleA.size)⟩ ∧
    (mkSamplePos 7 8 9 ⟨1, 0⟩).1.getHeight
        (setAspectRatioWH 4 3 (mkSamplePos 7 8 9 ⟨1, 0⟩).2) =
      cvRound ((3 : ℚ) / (4 : ℚ) * (9 : ℤ)) :=
  c9_setAspectRatio_wh ⟨1, 0⟩ 4 3 sampleA 7 8 9 (by decide)

/-- C10: `applyTo` is the identity on single-channel images, and, provided the
colour conversion always yields a single-channel image (as
`cvtColor(..., CV_BGR2GRAY)` does), one application of `applyInPlace` leaves a
single-channel image and a second application changes nothing. -/
theorem c10_grayscale_identity_idempotent (cvtToGray : Img → Img)
    (hc : ∀ m, (cvtToGray m).channels = 1) (image : Img) :
    (image.channels = 1 → GrayscaleFilter.applyTo cvtToGray image = image) ∧
    (1 ≤ image.channels → (GrayscaleFilter.applyInPlace cvtToGray image).channels = 1) ∧
    GrayscaleFilter.applyInPlace cvtToGray (GrayscaleFilter.applyInPlace cvtToGray image) =
      GrayscaleFilter.applyInPlace cvtToGray image := by
  unfold GrayscaleFilter.applyTo GrayscaleFilter.applyInPlace
  by_cases h : 1 < image.channels
  · simp only [if_pos h]
    refine ⟨fun h1 => absurd h (by omega), fun _ => hc image, ?_⟩
    rw [if_neg (by rw [hc image]; omega)]
  · rw [if_neg h, if_neg h]
    exact ⟨fun _ => rfl, fun h1 => by omega, rfl⟩

/-- Witness for C10 at a concrete three-channel image and the total grayscale
conversion `grayAll`. -/
theorem c10_grayscale_identity_idempotent_witness :
    ((⟨3, [7, 8]⟩ : Img).channels = 1 →
      GrayscaleFilter.applyTo grayAll ⟨3, [7, 8]⟩ = ⟨3, [7, 8]⟩) ∧
    (1 ≤ (⟨3, [7, 8]⟩ : Img).channels →
      (GrayscaleFilter.applyInPlace grayAll ⟨3, [7, 8]⟩).channels = 1) ∧
    GrayscaleFilter.applyInPlace grayAll (GrayscaleFilter.applyInPlace grayAll ⟨3, [7, 8]⟩) =
      GrayscaleFilter.applyInPlace grayAll ⟨3, [7, 8]⟩ :=
  c10_grayscale_identity_idempotent grayAll (fun _ => rfl) ⟨3, [7, 8]⟩
